import Mathlib

/-!
Verification of the execution/retry core of the `ai-first-devops-toolkit`
repository (`llm_ci_runner` package and the standalone `llm_runner.py`
script), as a shallow embedding in Lean 4.

The embedding follows the Python source:
* `src/llm_ci_runner/retry.py` — the retry classifiers
  `should_retry_openai_exception`, `should_retry_azure_exception`,
  `should_retry_network_exception`, and the tenacity-based
  `retry_network_operation` wrapper (`stop_after_attempt(3)`, `reraise=True`).
* `src/llm_ci_runner/core.py` — `process_sk_yaml_template` response
  post-processing and the `run_llm_task` orchestration order.
* `src/llm_runner.py` — `create_chat_history`, `execute_llm_task` response
  post-processing, `write_output_file` and `main` orchestration order.

Machine-level exceptions are modelled by an inductive type `Exc` covering the
exception classes the classifiers distinguish; the optional `status_code`
attribute is an `Option Int` (`none` models both a missing attribute and a
non-integer value, which the source treats identically).
-/

/-- Exception shapes distinguished by `retry.py`, plus the exception types the
repository itself raises.  `status` models the Python `status_code`
attribute: `none` when the attribute is absent or not an `int`. -/
inductive Exc where
  | apiConnectionError
  | apiTimeoutError
  | rateLimitError
  | apiError (status : Option Int)
  | clientAuthenticationError (status : Option Int)
  | serviceRequestError
  | serviceResponseError
  | httpResponseError (status : Option Int)
  | inputValidationError (msg : String)
  | authenticationError (msg : String)
  | llmExecutionError (msg : String)
  | schemaValidationError (msg : String)
  | llmRunnerError (msg : String)
  | otherError
deriving DecidableEq, Repr

/-- Embedding of `should_retry_openai_exception` (retry.py lines 42-62):
connection errors, timeouts and rate limits are retried; an `APIError`
exposing an integer `status_code` is retried exactly when the status is in
the 5xx range; everything else is not retried. -/
def should_retry_openai_exception : Exc → Bool
  | Exc.apiConnectionError => true
  | Exc.apiTimeoutError => true
  | Exc.rateLimitError => true
  | Exc.apiError (some s) => decide (500 ≤ s ∧ s < 600)
  | Exc.apiError none => false
  | _ => false

/-- Embedding of `should_retry_azure_exception` (retry.py lines 65-92):
`ClientAuthenticationError` is never retried (checked first, so a status code
on it is ignored); `ServiceRequestError`/`ServiceResponseError` are always
retried; an `HttpResponseError` exposing an integer `status_code` is retried
exactly when the status is in (408, 429, 500, 502, 503, 504); everything
else is not retried. -/
def should_retry_azure_exception : Exc → Bool
  | Exc.clientAuthenticationError _ => false
  | Exc.serviceRequestError => true
  | Exc.serviceResponseError => true
  | Exc.httpResponseError (some s) =>
      decide (s = 408 ∨ s = 429 ∨ s = 500 ∨ s = 502 ∨ s = 503 ∨ s = 504)
  | Exc.httpResponseError none => false
  | _ => false

/-- Embedding of `should_retry_network_exception` (retry.py lines 95-106):
the disjunction of the OpenAI and Azure classifiers. -/
def should_retry_network_exception (e : Exc) : Bool :=
  should_retry_openai_exception e || should_retry_azure_exception e

/-- The `status_code` attribute exposed by an exception, when it is an
integer.  `RateLimitError` always carries status 429 in the OpenAI SDK. -/
def statusCodeOf : Exc → Option Int
  | Exc.rateLimitError => some 429
  | Exc.apiError s => s
  | Exc.clientAuthenticationError s => s
  | Exc.httpResponseError s => s
  | _ => none

/-- The retriable status-code set named by the spec. -/
def retriableStatusCodes : List Int := [408, 429, 500, 502, 503, 504]

/-- The client-error status codes the spec asserts are never retried. -/
def clientErrorCodes : List Int := [400, 401, 403, 404, 422]

/-- Default maximum number of attempts (`DEFAULT_MAX_RETRIES`, retry.py
line 36, asserted equal to 3 by tests/unit/test_retry.py). -/
def DEFAULT_MAX_RETRIES : Nat := 3

/-- One run of a tenacity-wrapped operation
(`retry(retry=retry_if_exception(should_retry_network_exception),
stop=stop_after_attempt(n), reraise=True)`).  `op k` is the outcome of the
k-th backend call (1-indexed); `fuel` is the number of retries still allowed
after the current attempt.  Returns the final outcome together with the
number of backend calls performed: on success or a non-retriable error the
current exception/value is returned at once; a retriable error with fuel
left triggers one more attempt; with no fuel left the last error is
re-raised unchanged (`reraise=True`). -/
def retryRun {α : Type} (op : Nat → Except Exc α) : Nat → Nat → Except Exc α × Nat
  | 0, attempt =>
    match op attempt with
    | Except.ok a => (Except.ok a, 1)
    | Except.error e => (Except.error e, 1)
  | fuel + 1, attempt =>
    match op attempt with
    | Except.ok a => (Except.ok a, 1)
    | Except.error e =>
      if should_retry_network_exception e then
        let r := retryRun op fuel (attempt + 1)
        (r.1, r.2 + 1)
      else
        (Except.error e, 1)

/-- Embedding of `retry_network_operation` (retry.py lines 111-121) applied
to an operation: up to `DEFAULT_MAX_RETRIES` attempts, retrying only
exceptions accepted by `should_retry_network_exception`, re-raising the last
error unchanged once attempts are exhausted.  Returns the outcome and the
number of backend calls. -/
def retry_network_operation {α : Type} (op : Nat → Except Exc α) :
    Except Exc α × Nat :=
  retryRun op (DEFAULT_MAX_RETRIES - 1) 1

/-- C1, as stated by the spec: an error exposing an integer status code is
retried exactly when that status is in (408, 429, 500, 502, 503, 504).
This is FALSE on the code: an OpenAI `APIError` with `status_code = 501` is
retried by `should_retry_openai_exception` (which accepts the whole 5xx
range), although 501 is outside the claimed set. -/
theorem C1_counterexample :
    ¬ (∀ (e : Exc) (s : Int), statusCodeOf e = some s →
        (should_retry_network_exception e = true ↔ s ∈ retriableStatusCodes)) := by
  intro h
  have h501 := (h (Exc.apiError (some 501)) 501 rfl).mp (by decide)
  exact absurd h501 (by decide)

/-- C1 (amended): the combined classifier decides retriability per error
family.  For an Azure `HttpResponseError` with an integer status code,
retry happens exactly when the status is in (408, 429, 500, 502, 503, 504);
for an OpenAI `APIError` with an integer status code, retry happens exactly
when 500 ≤ status < 600; a `ClientAuthenticationError` is never retried,
whatever status it carries; and for every status in
(400, 401, 403, 404, 422) both families yield `should_retry = false`. -/
theorem C1_retry_classifier_by_family (s : Int) :
    (should_retry_network_exception (Exc.httpResponseError (some s)) = true ↔
      s ∈ retriableStatusCodes) ∧
    (should_retry_network_exception (Exc.apiError (some s)) = true ↔
      500 ≤ s ∧ s < 600) ∧
    (∀ t : Option Int,
      should_retry_network_exception (Exc.clientAuthenticationError t) = false) ∧
    (s ∈ clientErrorCodes →
      should_retry_network_exception (Exc.httpResponseError (some s)) = false ∧
      should_retry_network_exception (Exc.apiError (some s)) = false) := by
  refine ⟨?_, ?_, ?_, ?_⟩
  · simp [should_retry_network_exception, should_retry_openai_exception,
      should_retry_azure_exception, retriableStatusCodes]
  · simp [should_retry_network_exception, should_retry_openai_exception,
      should_retry_azure_exception]
  · intro t
    cases t <;> rfl
  · intro hs
    simp only [clientErrorCodes, List.mem_cons, List.not_mem_nil, or_false] at hs
    constructor
    · simp [should_retry_network_exception, should_retry_openai_exception,
        should_retry_azure_exception]
      omega
    · simp [should_retry_network_exception, should_retry_openai_exception,
        should_retry_azure_exception]
      omega

/-- Witness for C1: evaluating the amended theorem at status 503 shows a 503
`HttpResponseError` is retried, and at 401 that a 401 is not. -/
theorem C1_retry_classifier_by_family_witness :
    should_retry_network_exception (Exc.httpResponseError (some 503)) = true ∧
    should_retry_network_exception (Exc.apiError (some 401)) = false := by
  refine ⟨(C1_retry_classifier_by_family 503).1.mpr (by decide), ?_⟩
  exact ((C1_retry_classifier_by_family 401).2.2.2 (by decide)).2

/-- C3: with the default policy (3 attempts), a backend failing with a
retriable error on every call is invoked exactly 3 times and the third
attempt's error is re-raised unchanged; a backend failing with retriable
errors twice and succeeding on the third call yields success after exactly
3 calls. -/
theorem C3_retry_exhaustion_and_recovery {α : Type}
    (op op2 : Nat → Except Exc α) (e : Nat → Exc) (e1 e2 : Exc) (a : α)
    (hop : ∀ n, op n = Except.error (e n))
    (hre : ∀ n, should_retry_network_exception (e n) = true)
    (h1 : op2 1 = Except.error e1) (h2 : op2 2 = Except.error e2)
    (hr1 : should_retry_network_exception e1 = true)
    (hr2 : should_retry_network_exception e2 = true)
    (h3 : op2 3 = Except.ok a) :
    retry_network_operation op = (Except.error (e 3), 3) ∧
    retry_network_operation op2 = (Except.ok a, 3) := by
  constructor
  · show retryRun op 2 1 = _
    rw [retryRun, hop]
    dsimp only
    rw [if_pos (hre 1), retryRun, hop]
    dsimp only
    rw [if_pos (hre (1 + 1)), retryRun, hop]
  · show retryRun op2 2 1 = _
    rw [retryRun, h1]
    dsimp only
    rw [if_pos hr1, retryRun]
    rw [show (1 + 1 : Nat) = 2 from rfl, h2]
    dsimp only
    rw [if_pos hr2, retryRun]
    rw [show (2 + 1 : Nat) = 3 from rfl, h3]

/-- Witness for C3 at concrete backends: a backend always raising
`ServiceRequestError`, and a backend raising it twice then returning
"done". -/
theorem C3_retry_exhaustion_and_recovery_witness :
    retry_network_operation
        (fun _ => (Except.error Exc.serviceRequestError : Except Exc String)) =
      (Except.error Exc.serviceRequestError, 3) ∧
    retry_network_operation
        (fun n => if n = 3 then Except.ok "done"
          else (Except.error Exc.serviceRequestError : Except Exc String)) =
      (Except.ok "done", 3) :=
  C3_retry_exhaustion_and_recovery
    (fun _ => Except.error Exc.serviceRequestError)
    (fun n => if n = 3 then Except.ok "done"
      else Except.error Exc.serviceRequestError)
    (fun _ => Exc.serviceRequestError)
    Exc.serviceRequestError Exc.serviceRequestError "done"
    (fun _ => rfl) (fun _ => rfl) rfl rfl rfl rfl rfl

/-- C4: an authentication error (`ClientAuthenticationError`) is classified
as non-retriable, so the retry-wrapped operation performs exactly one
backend call and the original error is re-raised. -/
theorem C4_auth_error_single_call {α : Type}
    (op : Nat → Except Exc α) (st : Option Int)
    (h : op 1 = Except.error (Exc.clientAuthenticationError st)) :
    should_retry_network_exception (Exc.clientAuthenticationError st) = false ∧
    retry_network_operation op =
      (Except.error (Exc.clientAuthenticationError st), 1) := by
  constructor
  · cases st <;> rfl
  · show retryRun op 2 1 = _
    rw [retryRun, h]
    dsimp only
    have hn : should_retry_network_exception
        (Exc.clientAuthenticationError st) = false := by cases st <;> rfl
    rw [if_neg (by simp [hn])]

/-- Witness for C4: a backend raising `ClientAuthenticationError` with
status 401 on its first call. -/
theorem C4_auth_error_single_call_witness :
    retry_network_operation
        (fun _ => (Except.error (Exc.clientAuthenticationError (some 401)) :
          Except Exc String)) =
      (Except.error (Exc.clientAuthenticationError (some 401)), 1) :=
  (C4_auth_error_single_call
    (fun _ => Except.error (Exc.clientAuthenticationError (some 401)))
    (some 401) rfl).2

/-- JSON values, with numbers as rationals (JSON numbers are decimal
literals).  This is the shape `json.loads` produces for the engine. -/
inductive JsonVal where
  | null
  | bool (b : Bool)
  | num (q : Rat)
  | str (s : String)
  | arr (elems : List JsonVal)
  | obj (fields : List (String × JsonVal))

/-- The engine's normalized result: either a parsed JSON structure or the
raw assistant text. -/
inductive EngineResponse where
  | structured (j : JsonVal)
  | text (s : String)

/-- The error message `process_sk_yaml_template` raises when a template
requires JSON and the content does not parse (core.py lines 232-235,
content truncated to 200 characters). -/
def skJsonErrorMsg (content : String) : String :=
  "SK template requires JSON output but received invalid JSON. Content: " ++
    content.take 200 ++ "..."

/-- Embedding of the response handling of `process_sk_yaml_template`
(core.py lines 220-239): try `json.loads` on the content; on success the
parsed value is the response (whether or not JSON was required); on parse
failure raise `SchemaValidationError` when the template requires JSON,
otherwise keep the raw text.  `loads` is the outcome of Python
`json.loads` on a given string (`none` models `JSONDecodeError`). -/
def process_sk_content (loads : String → Option JsonVal) (requires_json : Bool)
    (content : String) : Except Exc EngineResponse :=
  match loads content with
  | some j => Except.ok (EngineResponse.structured j)
  | none =>
    if requires_json then
      Except.error (Exc.schemaValidationError (skJsonErrorMsg content))
    else
      Except.ok (EngineResponse.text content)

/-- The SK-template execution pipeline of core.py: the backend call runs
under `retry_network_operation` (the network layer), and only after it
returns is the content parsed by `process_sk_content`.  Returns the outcome
and the number of backend calls. -/
def sk_template_pipeline (loads : String → Option JsonVal) (requires_json : Bool)
    (backend : Nat → Except Exc String) : Except Exc EngineResponse × Nat :=
  match retry_network_operation backend with
  | (Except.ok content, n) => (process_sk_content loads requires_json content, n)
  | (Except.error e, n) => (Except.error e, n)

/-- Embedding of the result handling of `execute_llm_task`
(llm_runner.py lines 559-578): with a schema model, parse the response as
JSON and return the parsed value, raising `LLMExecutionError` on parse
failure; without a schema, return the raw text unchanged (no parse is
attempted). -/
def execute_llm_task_postprocess (loads : String → Option JsonVal)
    (has_schema : Bool) (response : String) : Except Exc EngineResponse :=
  if has_schema then
    match loads response with
    | some j => Except.ok (EngineResponse.structured j)
    | none =>
        Except.error
          (Exc.llmExecutionError "Schema enforcement failed - invalid JSON returned")
  else
    Except.ok (EngineResponse.text response)

/-- A field type of a compiled schema (spec section 3). -/
inductive FieldType where
  | stringT
  | integerT
  | numberT
  | booleanT
  | arrayT
  | objectT

/-- Modelled from the spec: `FieldSpec` of spec section 3 (the repository
performs schema validation only inside the external pydantic machinery that
constrains generation at the backend; no in-repo source implements a
response validator).  Only the constraints needed here are kept: type,
numeric minimum/maximum, string enum. -/
structure FieldSpec where
  ftype : FieldType
  minVal : Option Rat
  maxVal : Option Rat
  enumVals : Option (List String)

/-- Modelled from the spec: `SchemaSpec` of spec section 3 — named fields
and a required set. -/
structure SchemaSpec where
  fields : List (String × FieldSpec)
  required : List String

/-- A JSON value has the declared primitive type. -/
def typeMatches : FieldType → JsonVal → Bool
  | FieldType.stringT, JsonVal.str _ => true
  | FieldType.integerT, JsonVal.num q => q.den == 1
  | FieldType.numberT, JsonVal.num _ => true
  | FieldType.booleanT, JsonVal.bool _ => true
  | FieldType.arrayT, JsonVal.arr _ => true
  | FieldType.objectT, JsonVal.obj _ => true
  | _, _ => false

/-- Numeric range constraints of a field are satisfied. -/
def checkRange (f : FieldSpec) (j : JsonVal) : Bool :=
  match j with
  | JsonVal.num q =>
      (match f.minVal with
        | none => true
        | some m => decide (m ≤ q)) &&
      (match f.maxVal with
        | none => true
        | some m => decide (q ≤ m))
  | _ => true

/-- Enum constraints of a field are satisfied. -/
def checkEnum (f : FieldSpec) (j : JsonVal) : Bool :=
  match f.enumVals, j with
  | some vs, JsonVal.str s => vs.contains s
  | some _, _ => false
  | none, _ => true

/-- Look up a field of a JSON object by name. -/
def lookupField (fields : List (String × JsonVal)) (name : String) :
    Option JsonVal :=
  (fields.find? (fun p => p.1 == name)).map Prod.snd

/-- Modelled from the spec: validation of a parsed response against a
compiled schema, following spec section 4.4 step 4 — required fields
present, types, enums and ranges satisfied, unknown keys rejected. -/
def validateAgainst (spec : SchemaSpec) (j : JsonVal) : Bool :=
  match j with
  | JsonVal.obj fields =>
      spec.required.all (fun r => (lookupField fields r).isSome) &&
      fields.all (fun p =>
        match spec.fields.find? (fun q => q.1 == p.1) with
        | none => false
        | some qf => typeMatches qf.2.ftype p.2 && checkRange qf.2 p.2 &&
            checkEnum qf.2 p.2)
  | _ => false

/-- A retry-wrapped operation that succeeds on its first call performs
exactly one backend call. -/
theorem retry_first_success {α : Type} (op : Nat → Except Exc α) (a : α)
    (h : op 1 = Except.ok a) :
    retry_network_operation op = (Except.ok a, 1) := by
  show retryRun op 2 1 = _
  rw [retryRun, h]

/-- The schema of spec scenario E: one required numeric field `confidence`
with minimum 0 and maximum 1. -/
def confidenceSchema : SchemaSpec :=
  ⟨[("confidence", ⟨FieldType.numberT, some 0, some 1, none⟩)], ["confidence"]⟩

/-- The parsed form of a backend response violating `confidenceSchema`. -/
def confidenceJson : JsonVal :=
  JsonVal.obj [("confidence", JsonVal.num (mkRat 3 2))]

/-- The raw text of that backend response. -/
def confidenceRaw : String := "\x7b\"confidence\": 1.5\x7d"

/-- A `json.loads` table for that response. -/
def loadsConf : String → Option JsonVal := fun s =>
  if s = confidenceRaw then some confidenceJson else none

/-- A backend returning that response on every call. -/
def backendConf : Nat → Except Exc String := fun _ => Except.ok confidenceRaw

/-- C2, as stated by the spec: in a schema-constrained execution whose raw
text fails to parse as JSON OR parses but fails schema validation, the
engine reports a schema-violation failure.  This is FALSE on the code for
the second disjunct: the engine performs no post-parse validation, so a
response that parses but violates the schema (spec scenario E:
`confidence = 1.5` against a schema demanding `0 ≤ confidence ≤ 1`) is
returned as a successful `Structured` outcome. -/
theorem C2_counterexample :
    ¬ (∀ (loads : String → Option JsonVal) (backend : Nat → Except Exc String)
        (content : String) (spec : SchemaSpec),
        backend 1 = Except.ok content →
        (loads content = none ∨
          ∃ j, loads content = some j ∧ validateAgainst spec j = false) →
        ∃ msg, (sk_template_pipeline loads true backend).1 =
          Except.error (Exc.schemaValidationError msg)) := by
  intro h
  obtain ⟨msg, hmsg⟩ := h loadsConf backendConf confidenceRaw confidenceSchema rfl
    (Or.inr ⟨confidenceJson, by rfl, by decide⟩)
  rw [show (sk_template_pipeline loadsConf true backendConf).1 =
      Except.ok (EngineResponse.structured confidenceJson) from rfl] at hmsg
  exact Except.noConfusion hmsg

/-- C2 (amended): in a schema-constrained execution whose raw text fails to
parse as JSON, the core engine (`process_sk_yaml_template`) raises
`SchemaValidationError` immediately after the single successful backend
call — the parse failure causes no further backend call — and that error
is classified as non-retriable by the network classifier; the standalone
`llm_runner.py` engine likewise raises its (differently named)
`LLMExecutionError` at once, also non-retriable.  Content that parses but
violates the schema is however returned as a successful `Structured`
outcome: the code performs no post-parse schema validation, relying on
backend token-level constraint enforcement. -/
theorem C2_parse_failure_fail_fast
    (loads : String → Option JsonVal) (backend : Nat → Except Exc String)
    (content : String)
    (hb : backend 1 = Except.ok content)
    (hp : loads content = none) :
    sk_template_pipeline loads true backend =
      (Except.error (Exc.schemaValidationError (skJsonErrorMsg content)), 1) ∧
    should_retry_network_exception
      (Exc.schemaValidationError (skJsonErrorMsg content)) = false ∧
    execute_llm_task_postprocess loads true content =
      Except.error
        (Exc.llmExecutionError "Schema enforcement failed - invalid JSON returned") ∧
    should_retry_network_exception
      (Exc.llmExecutionError "Schema enforcement failed - invalid JSON returned") =
      false := by
  refine ⟨?_, rfl, ?_, rfl⟩
  · rw [sk_template_pipeline, retry_first_success backend content hb]
    dsimp only
    unfold process_sk_content
    rw [hp]
    rfl
  · unfold execute_llm_task_postprocess
    simp only [if_true]
    rw [hp]

/-- Witness for C2: a backend whose single successful call returns the
non-JSON text "not json", with a `json.loads` that rejects everything. -/
theorem C2_parse_failure_fail_fast_witness :
    sk_template_pipeline (fun _ => none) true (fun _ => Except.ok "not json") =
      (Except.error (Exc.schemaValidationError (skJsonErrorMsg "not json")), 1) :=
  (C2_parse_failure_fail_fast (fun _ => none) (fun _ => Except.ok "not json")
    "not json" rfl rfl).1

/-- C8: in a schema-constrained execution whose raw text parses as JSON,
both engines return `Structured` carrying exactly the parsed value —
no field added, dropped or altered — after a single backend call in the
core pipeline. -/
theorem C8_structured_roundtrip
    (loads : String → Option JsonVal) (backend : Nat → Except Exc String)
    (content : String) (j : JsonVal)
    (hb : backend 1 = Except.ok content)
    (hj : loads content = some j) :
    sk_template_pipeline loads true backend =
      (Except.ok (EngineResponse.structured j), 1) ∧
    execute_llm_task_postprocess loads true content =
      Except.ok (EngineResponse.structured j) := by
  constructor
  · rw [sk_template_pipeline, retry_first_success backend content hb]
    dsimp only
    unfold process_sk_content
    rw [hj]
  · unfold execute_llm_task_postprocess
    simp only [if_true]
    rw [hj]

/-- Witness for C8: the scenario-E response text parsed by `loadsConf`. -/
theorem C8_structured_roundtrip_witness :
    sk_template_pipeline loadsConf true backendConf =
      (Except.ok (EngineResponse.structured confidenceJson), 1) :=
  (C8_structured_roundtrip loadsConf backendConf confidenceRaw confidenceJson
    rfl (by rfl)).1

/-- C9, as stated by the spec: with `json_required = false`, the engine
attempts a best-effort JSON parse and returns the parsed structure whenever
the text parses.  This is FALSE for the standalone `llm_runner.py` engine:
its text-output mode returns the raw string without attempting any parse,
so JSON text is returned as `Text`, not as the parsed structure. -/
theorem C9_counterexample :
    ¬ (∀ (loads : String → Option JsonVal) (content : String) (j : JsonVal),
        loads content = some j →
        process_sk_content loads false content =
          Except.ok (EngineResponse.structured j) ∧
        execute_llm_task_postprocess loads false content =
          Except.ok (EngineResponse.structured j)) := by
  intro h
  have := (h (fun _ => some (JsonVal.arr [])) "[]" (JsonVal.arr []) rfl).2
  rw [show execute_llm_task_postprocess (fun _ => some (JsonVal.arr [])) false "[]" =
      Except.ok (EngineResponse.text "[]") from rfl] at this
  have := Except.ok.inj this
  exact EngineResponse.noConfusion this

/-- C9 (amended): the core engine (`process_sk_yaml_template`) does attempt
a best-effort parse when JSON is not required — parse success yields the
parsed structure, parse failure yields `Text(raw_text)` with no error —
whereas the standalone `llm_runner.py` engine attempts no parse in
text-output mode and always returns `Text(raw_text)`. -/
theorem C9_best_effort_parse (loads : String → Option JsonVal)
    (content : String) :
    (∀ j, loads content = some j →
      process_sk_content loads false content =
        Except.ok (EngineResponse.structured j)) ∧
    (loads content = none →
      process_sk_content loads false content =
        Except.ok (EngineResponse.text content)) ∧
    execute_llm_task_postprocess loads false content =
      Except.ok (EngineResponse.text content) := by
  refine ⟨?_, ?_, rfl⟩
  · intro j hj
    unfold process_sk_content
    rw [hj]
  · intro hn
    unfold process_sk_content
    rw [hn]
    rfl

/-- Witness for C9: JSON text "[]" is normalized to a structure by the core
engine, and non-JSON text "plain" is kept as text. -/
theorem C9_best_effort_parse_witness :
    process_sk_content (fun s => if s = "[]" then some (JsonVal.arr []) else none)
        false "[]" = Except.ok (EngineResponse.structured (JsonVal.arr [])) ∧
    process_sk_content (fun s => if s = "[]" then some (JsonVal.arr []) else none)
        false "plain" = Except.ok (EngineResponse.text "plain") :=
  ⟨(C9_best_effort_parse (fun s => if s = "[]" then some (JsonVal.arr []) else none)
      "[]").1 (JsonVal.arr []) (by rfl),
   (C9_best_effort_parse (fun s => if s = "[]" then some (JsonVal.arr []) else none)
      "plain").2.1 (by rfl)⟩

/-- A raw input message as supplied to `create_chat_history`
(llm_runner.py lines 303-348): a dictionary whose `role` and `content`
keys may be absent (`none`) and whose `name` key is optional. -/
structure RawMessage where
  role : Option String
  content : Option String
  mname : Option String
deriving DecidableEq, Repr

/-- The role values accepted by the Semantic Kernel `AuthorRole` enum
(spec section 3: system, user, assistant, tool); any other value makes
`AuthorRole(value)` raise `ValueError`. -/
def authorRoles : List String := ["system", "user", "assistant", "tool"]

/-- A validated chat message added to the `ChatHistory`. -/
structure ChatMsg where
  role : String
  content : String
  mname : Option String
deriving DecidableEq, Repr

/-- The error message for a message with a missing `role` or `content`
key (llm_runner.py lines 323-326). -/
def missingFieldMsg (i : Nat) : String :=
  "Message " ++ toString i ++ " missing required role or content field"

/-- The error message for an unrecognized role value
(llm_runner.py lines 340-343). -/
def invalidRoleMsg (i : Nat) (r : String) : String :=
  "Invalid role " ++ r ++ " in message " ++ toString i

/-- The validation outcome for the message at 0-based index `i`: first the
presence of `role` and `content` is checked, then the role value. -/
def messageError (i : Nat) (m : RawMessage) : Option String :=
  match m.role, m.content with
  | some r, some _ =>
      if authorRoles.contains r then none else some (invalidRoleMsg i r)
  | _, _ => some (missingFieldMsg i)

/-- A message passes validation: both keys present and a recognized role. -/
def wellFormedMsg (m : RawMessage) : Bool :=
  match m.role, m.content with
  | some r, some _ => authorRoles.contains r
  | _, _ => false

/-- The `ChatMessageContent` built from a valid raw message. -/
def toChatMsg (m : RawMessage) : ChatMsg :=
  ⟨m.role.getD "", m.content.getD "", m.mname⟩

/-- The enumerated loop of `create_chat_history`: `i` is the index of the
first message of the remaining list; the first invalid message aborts the
whole conversion with `InputValidationError`. -/
def create_chat_history_aux : Nat → List RawMessage → Except Exc (List ChatMsg)
  | _, [] => Except.ok []
  | i, m :: rest =>
    match messageError i m with
    | some s => Except.error (Exc.inputValidationError s)
    | none =>
      match create_chat_history_aux (i + 1) rest with
      | Except.ok l => Except.ok (toChatMsg m :: l)
      | Except.error e => Except.error e

/-- Embedding of `create_chat_history` (llm_runner.py lines 303-348):
validate each message in order, starting at index 0. -/
def create_chat_history (messages : List RawMessage) : Except Exc (List ChatMsg) :=
  create_chat_history_aux 0 messages

/-- A message validates without error exactly when it is well-formed. -/
theorem messageError_none_iff (i : Nat) (m : RawMessage) :
    messageError i m = none ↔ wellFormedMsg m = true := by
  obtain ⟨mr, mc, mn⟩ := m
  cases mr <;> cases mc <;> simp [messageError, wellFormedMsg]

/-- On an all-well-formed list the loop returns every message, converted in
order. -/
theorem create_chat_history_aux_ok (msgs : List RawMessage) :
    ∀ k : Nat, (∀ m ∈ msgs, wellFormedMsg m = true) →
    create_chat_history_aux k msgs = Except.ok (msgs.map toChatMsg) := by
  induction msgs with
  | nil => intro k _; rfl
  | cons m rest ih =>
    intro k h
    have hm : messageError k m = none :=
      (messageError_none_iff k m).mpr (h m (by simp))
    unfold create_chat_history_aux
    rw [hm]
    dsimp only
    rw [ih (k + 1) (fun x hx => h x (by simp [hx]))]
    rfl

/-- The loop stops at the first invalid message, raising the error built
from that message's index. -/
theorem create_chat_history_aux_error (pre : List RawMessage)
    (bad : RawMessage) (rest : List RawMessage) (s : String) :
    ∀ k : Nat, (∀ m ∈ pre, wellFormedMsg m = true) →
    messageError (k + pre.length) bad = some s →
    create_chat_history_aux k (pre ++ bad :: rest) =
      Except.error (Exc.inputValidationError s) := by
  induction pre with
  | nil =>
    intro k _ hbad
    simp only [List.length_nil, Nat.add_zero] at hbad
    rw [List.nil_append]
    unfold create_chat_history_aux
    rw [hbad]
  | cons m pre ih =>
    intro k hpre hbad
    rw [List.length_cons] at hbad
    rw [show k + (pre.length + 1) = (k + 1) + pre.length from by omega] at hbad
    have hm : messageError k m = none :=
      (messageError_none_iff k m).mpr (hpre m (by simp))
    rw [List.cons_append]
    unfold create_chat_history_aux
    rw [hm]
    dsimp only
    rw [ih (k + 1) (fun x hx => hpre x (by simp [hx])) hbad]

/-- C7: `create_chat_history` fails with an `InputValidationError` naming
the 0-based index of the first offending entry — an entry missing `role`
or `content`, or carrying an unrecognized role — and on a well-formed list
it succeeds, converting every message in order (so message count and order
are preserved). -/
theorem C7_chat_history_validation (msgs pre rest : List RawMessage)
    (bad : RawMessage) (s : String) :
    (msgs = pre ++ bad :: rest →
      (∀ m ∈ pre, wellFormedMsg m = true) →
      messageError pre.length bad = some s →
      create_chat_history msgs = Except.error (Exc.inputValidationError s)) ∧
    ((∀ m ∈ msgs, wellFormedMsg m = true) →
      create_chat_history msgs = Except.ok (msgs.map toChatMsg) ∧
      (msgs.map toChatMsg).length = msgs.length) := by
  constructor
  · intro hm hpre hbad
    subst hm
    have : (0 : Nat) + pre.length = pre.length := by omega
    exact create_chat_history_aux_error pre bad rest s 0 hpre (by rw [this]; exact hbad)
  · intro h
    exact ⟨create_chat_history_aux_ok msgs 0 h, List.length_map _ _⟩

/-- Witness for C7: the list whose second entry is missing `content` fails
naming index 1; a well-formed two-message list converts both messages. -/
theorem C7_chat_history_validation_witness :
    create_chat_history
        [⟨some "system", some "be helpful", none⟩,
          ⟨some "user", none, none⟩] =
      Except.error (Exc.inputValidationError (missingFieldMsg 1)) ∧
    create_chat_history
        [⟨some "system", some "be helpful", none⟩,
          ⟨some "user", some "hi", some "developer"⟩] =
      Except.ok [⟨"system", "be helpful", none⟩, ⟨"user", "hi", some "developer"⟩] := by
  constructor
  · exact (C7_chat_history_validation
      [⟨some "system", some "be helpful", none⟩, ⟨some "user", none, none⟩]
      [⟨some "system", some "be helpful", none⟩] []
      ⟨some "user", none, none⟩ (missingFieldMsg 1)).1 rfl (by decide) (by decide)
  · exact ((C7_chat_history_validation
      [⟨some "system", some "be helpful", none⟩,
        ⟨some "user", some "hi", some "developer"⟩] [] []
      ⟨none, none, none⟩ "").2 (by decide)).1

/-- Python truthiness of an optional string parameter: `none` (Python
`None`) and the empty string are falsy. -/
def truthy : Option String → Bool
  | none => false
  | some s => !(s == "")

/-- Python truthiness of the optional `template_vars` dict: `None` and the
empty dict are falsy. -/
def truthyVars : Option (List (String × JsonVal)) → Bool
  | none => false
  | some l => !l.isEmpty

/-- The parameters of `run_llm_task` (core.py lines 571-582). -/
structure RunParams where
  input_file : Option String
  template_file : Option String
  template_vars_file : Option String
  schema_file : Option String
  output_file : Option String
  template_content : Option String
  template_format : Option String
  template_vars : Option (List (String × JsonVal))

/-- The count of non-None template inputs (core.py lines 648-649 uses
`is not None`, unlike the truthiness checks around it). -/
def countTemplateInputs (p : RunParams) : Nat :=
  (if p.input_file.isSome then 1 else 0) +
    (if p.template_file.isSome then 1 else 0) +
    (if p.template_content.isSome then 1 else 0)

/-- The accepted template formats (core.py line 663). -/
def allowedFormats : List String := ["handlebars", "jinja2", "semantic-kernel"]

/-- Embedding of the parameter-validation block of `run_llm_task`
(core.py lines 643-666), returning the message of the
`InputValidationError` it raises, or `none` when validation passes.  The
checks run in source order: no input given, multiple inputs given (by
`is not None`), `template_content` without `template_format`, both
`template_vars_file` and `template_vars`, and an unrecognized truthy
`template_format`. -/
def validate_run_llm_task_params (p : RunParams) : Option String :=
  if !truthy p.input_file && !truthy p.template_file &&
      !truthy p.template_content then
    some "Either input_file, template_file, or template_content must be specified"
  else if countTemplateInputs p > 1 then
    some "Cannot specify multiple template inputs: input_file, template_file, and template_content are mutually exclusive"
  else if truthy p.template_content && !truthy p.template_format then
    some "template_format is required when using template_content"
  else if truthy p.template_vars_file && truthyVars p.template_vars then
    some "Cannot specify both template_vars_file and template_vars"
  else if truthy p.template_format &&
      !(allowedFormats.contains (p.template_format.getD "")) then
    some "Invalid template_format. Must be one of: handlebars, jinja2, semantic-kernel"
  else
    none

/-- Observable steps of a run, in the order the orchestration code
performs them. -/
inductive Event where
  | loadInput
  | setupService
  | loadSchema
  | processInput
  | backendCall
  | writeOutput
deriving DecidableEq, Repr

/-- Embedding of the orchestration order of `run_llm_task`
(core.py lines 643-733, input-file mode): parameter validation runs first;
then `setup_llm_service` (line 675) acquires the service and credential;
then `load_schema_file` (line 678) may fail on an invalid schema document;
then `process_input_file` (line 691) may fail on malformed messages; and
only then is the LLM executed.  The collaborator outcomes are passed in as
`schemaLoad`, `inputLoad` and `exec`; the trace lists the steps reached. -/
def run_llm_task_trace (p : RunParams)
    (schemaLoad : Except Exc Unit) (inputLoad : Except Exc Unit)
    (exec : Except Exc EngineResponse) :
    List Event × Except Exc EngineResponse :=
  match validate_run_llm_task_params p with
  | some s => ([], Except.error (Exc.inputValidationError s))
  | none =>
    match schemaLoad with
    | Except.error e => ([Event.setupService, Event.loadSchema], Except.error e)
    | Except.ok _ =>
      match inputLoad with
      | Except.error e =>
          ([Event.setupService, Event.loadSchema, Event.processInput],
            Except.error e)
      | Except.ok _ =>
        match exec with
        | Except.error e =>
            ([Event.setupService, Event.loadSchema, Event.processInput,
                Event.backendCall], Except.error e)
        | Except.ok r =>
            ([Event.setupService, Event.loadSchema, Event.processInput,
                Event.backendCall], Except.ok r)

/-- The document `write_output_file` persists (llm_runner.py
lines 604-612). -/
structure OutputDoc where
  success : Bool
  response : EngineResponse
  metadata : List (String × String)

/-- The metadata mapping written by `write_output_file`. -/
def outputMetadata : List (String × String) :=
  [("runner", "llm_runner.py"), ("timestamp", "auto-generated")]

/-- State of the output file after a run: never created, left truncated or
half-written by a failed in-place write, or fully written. -/
inductive FileState where
  | absent
  | truncated
  | written (doc : OutputDoc)

/-- Embedding of `main` of llm_runner.py (lines 624-682): load input and
build the chat history (both before any service setup), set up the Azure
service, load the schema, perform the single backend call (no retry
wrapper exists in llm_runner.py), post-process, and finally write the
output file.  `write_output_file` opens the file with mode "w" (truncate)
and streams `json.dump` into it (lines 615-616), so a failing dump —
modelled by `dump_ok = false` — leaves a truncated or half-written file
and raises `LLMRunnerError`.  Returns the event trace, the final output
file state, and the process outcome. -/
def llm_runner_main (inputLoad : Except Exc (List RawMessage))
    (schemaLoad : Except Exc Bool) (backendResult : Except Exc String)
    (loads : String → Option JsonVal) (dump_ok : Bool) :
    List Event × FileState × Except Exc Unit :=
  match inputLoad with
  | Except.error e => ([Event.loadInput], FileState.absent, Except.error e)
  | Except.ok msgs =>
    match create_chat_history msgs with
    | Except.error e => ([Event.loadInput], FileState.absent, Except.error e)
    | Except.ok _ =>
      match schemaLoad with
      | Except.error e =>
          ([Event.loadInput, Event.setupService, Event.loadSchema],
            FileState.absent, Except.error e)
      | Except.ok hasSchema =>
        match backendResult with
        | Except.error e =>
            ([Event.loadInput, Event.setupService, Event.loadSchema,
                Event.backendCall], FileState.absent, Except.error e)
        | Except.ok raw =>
          match execute_llm_task_postprocess loads hasSchema raw with
          | Except.error e =>
              ([Event.loadInput, Event.setupService, Event.loadSchema,
                  Event.backendCall], FileState.absent, Except.error e)
          | Except.ok resp =>
            if dump_ok then
              ([Event.loadInput, Event.setupService, Event.loadSchema,
                  Event.backendCall, Event.writeOutput],
                FileState.written ⟨true, resp, outputMetadata⟩, Except.ok ())
            else
              ([Event.loadInput, Event.setupService, Event.loadSchema,
                  Event.backendCall, Event.writeOutput],
                FileState.truncated,
                Except.error (Exc.llmRunnerError "Error writing output file"))

/-- A valid parameter set: an input file with a schema file. -/
def pC5 : RunParams :=
  ⟨some "input.json", none, none, some "schema.json", some "out.json",
    none, none, none⟩

/-- C5, as stated by the spec: an invalid schema document makes the run
fail before the LLM service/credential is set up.  This is FALSE on the
code: `run_llm_task` calls `setup_llm_service` (core.py line 675) before
`load_schema_file` (line 678), so with a valid parameter set and an
invalid schema document the trace already contains the service-setup
step. -/
theorem C5_counterexample :
    ¬ (∀ (p : RunParams) (inputLoad : Except Exc Unit)
        (exec : Except Exc EngineResponse) (e : Exc),
        Event.setupService ∉
          (run_llm_task_trace p (Except.error e) inputLoad exec).1) := by
  intro h
  exact h pC5 (Except.ok ()) (Except.ok (EngineResponse.text "hello"))
    (Exc.schemaValidationError "Failed to create dynamic model")
    (by decide)

/-- C5 (amended): parameter-validation errors are raised before anything
else — the trace is empty, so in particular before service setup and
before any backend call; an invalid schema document or a malformed message
list makes the run fail before any backend call is attempted, but only
after the LLM service/credential has been set up in `run_llm_task`; in the
standalone `llm_runner.py`, a malformed message list does fail before
service setup; and a schema-load failure never reaches a backend call. -/
theorem C5_validation_before_network
    (p : RunParams) (inputLoad : Except Exc Unit)
    (exec : Except Exc EngineResponse) (e : Exc) (s : String)
    (msgs : List RawMessage) (schemaLoadM : Except Exc Bool)
    (backendResult : Except Exc String) (loads : String → Option JsonVal)
    (dump_ok : Bool) :
    (validate_run_llm_task_params p = some s →
      run_llm_task_trace p (Except.ok ()) inputLoad exec =
        ([], Except.error (Exc.inputValidationError s))) ∧
    (validate_run_llm_task_params p = none →
      run_llm_task_trace p (Except.error e) inputLoad exec =
        ([Event.setupService, Event.loadSchema], Except.error e)) ∧
    (validate_run_llm_task_params p = none →
      run_llm_task_trace p (Except.ok ()) (Except.error e) exec =
        ([Event.setupService, Event.loadSchema, Event.processInput],
          Except.error e)) ∧
    (create_chat_history msgs = Except.error e →
      llm_runner_main (Except.ok msgs) schemaLoadM backendResult loads dump_ok =
        ([Event.loadInput], FileState.absent, Except.error e)) ∧
    Event.backendCall ∉
      (run_llm_task_trace p (Except.error e) inputLoad exec).1 := by
  refine ⟨?_, ?_, ?_, ?_, ?_⟩
  · intro hv
    unfold run_llm_task_trace
    rw [hv]
  · intro hv
    unfold run_llm_task_trace
    rw [hv]
  · intro hv
    unfold run_llm_task_trace
    rw [hv]
  · intro hch
    unfold llm_runner_main
    dsimp only
    rw [hch]
  · unfold run_llm_task_trace
    cases hv : validate_run_llm_task_params p with
    | some s => simp
    | none => simp

/-- Witness for C5: with valid parameters and a failing schema load, the
trace stops at the schema-load step and the error propagates; a malformed
message list in llm_runner.py fails before service setup. -/
theorem C5_validation_before_network_witness :
    run_llm_task_trace pC5
        (Except.error (Exc.schemaValidationError "Failed to create dynamic model"))
        (Except.ok ()) (Except.ok (EngineResponse.text "hello")) =
      ([Event.setupService, Event.loadSchema],
        Except.error (Exc.schemaValidationError "Failed to create dynamic model")) ∧
    llm_runner_main (Except.ok [⟨none, some "hi", none⟩]) (Except.ok false)
        (Except.ok "hello") (fun _ => none) true =
      ([Event.loadInput], FileState.absent,
        Except.error (Exc.inputValidationError (missingFieldMsg 0))) := by
  constructor
  · exact (C5_validation_before_network pC5 (Except.ok ())
      (Except.ok (EngineResponse.text "hello"))
      (Exc.schemaValidationError "Failed to create dynamic model") "" []
      (Except.ok false) (Except.ok "hello") (fun _ => none) true).2.1 (by decide)
  · exact (C5_validation_before_network pC5 (Except.ok ())
      (Except.ok (EngineResponse.text "hello"))
      (Exc.inputValidationError (missingFieldMsg 0)) ""
      [⟨none, some "hi", none⟩]
      (Except.ok false) (Except.ok "hello") (fun _ => none) true).2.2.2.1 rfl

/-- Decidable equality of run outcomes. -/
instance {ε α : Type} [DecidableEq ε] [DecidableEq α] :
    DecidableEq (Except ε α)
  | Except.ok a, Except.ok b =>
    if h : a = b then isTrue (by rw [h]) else
      isFalse (fun hc => h (Except.ok.inj hc))
  | Except.ok _, Except.error _ => isFalse (fun hc => Except.noConfusion hc)
  | Except.error _, Except.ok _ => isFalse (fun hc => Except.noConfusion hc)
  | Except.error a, Except.error b =>
    if h : a = b then isTrue (by rw [h]) else
      isFalse (fun hc => h (Except.error.inj hc))

/-- C6, as stated by the spec: no partial or corrupt output file is left
behind on any failure path.  This is FALSE on the code:
`write_output_file` truncates the output file in place (`open(.., "w")`)
and streams `json.dump` into it with no temp-file-and-rename step, so a
dump that fails mid-write leaves a truncated file while the run fails with
`LLMRunnerError`. -/
theorem C6_counterexample :
    ¬ (∀ (inputLoad : Except Exc (List RawMessage))
        (schemaLoad : Except Exc Bool) (backendResult : Except Exc String)
        (loads : String → Option JsonVal) (dump_ok : Bool),
        (llm_runner_main inputLoad schemaLoad backendResult loads
            dump_ok).2.2 ≠ Except.ok () →
        (llm_runner_main inputLoad schemaLoad backendResult loads
            dump_ok).2.1 = FileState.absent) := by
  intro h
  have hfail := h (Except.ok [⟨some "user", some "hi", none⟩])
    (Except.ok false) (Except.ok "hello") (fun _ => none) false (by decide)
  rw [show (llm_runner_main (Except.ok [⟨some "user", some "hi", none⟩])
      (Except.ok false) (Except.ok "hello") (fun _ => none) false).2.1 =
      FileState.truncated from rfl] at hfail
  exact FileState.noConfusion hfail

/-- C6 (amended): the output file is written at most once per run, only
after a fully successful LLM outcome, and a completed write always has the
shape `success = true`, the response payload, and the fixed metadata
mapping; every failure before the write step leaves no file at all.  The
write itself however is not atomic: it truncates the file in place, so a
failure during the write leaves a partial file behind (see the
counterexample). -/
theorem C6_output_written_once_on_success
    (inputLoad : Except Exc (List RawMessage)) (schemaLoad : Except Exc Bool)
    (backendResult : Except Exc String) (loads : String → Option JsonVal)
    (dump_ok : Bool) :
    ((llm_runner_main inputLoad schemaLoad backendResult loads
        dump_ok).1.count Event.writeOutput ≤ 1) ∧
    (∀ doc, (llm_runner_main inputLoad schemaLoad backendResult loads
        dump_ok).2.1 = FileState.written doc →
      doc.success = true ∧ doc.metadata = outputMetadata ∧
      (llm_runner_main inputLoad schemaLoad backendResult loads
        dump_ok).2.2 = Except.ok ()) ∧
    (dump_ok = true →
      (llm_runner_main inputLoad schemaLoad backendResult loads
          dump_ok).2.2 ≠ Except.ok () →
      (llm_runner_main inputLoad schemaLoad backendResult loads
          dump_ok).2.1 = FileState.absent) ∧
    ((llm_runner_main inputLoad schemaLoad backendResult loads
        dump_ok).2.2 = Except.ok () →
      ∃ resp, (llm_runner_main inputLoad schemaLoad backendResult loads
          dump_ok).2.1 = FileState.written ⟨true, resp, outputMetadata⟩) := by
  unfold llm_runner_main
  cases inputLoad with
  | error e =>
    try dsimp only
    exact ⟨by decide, by simp, by simp, by simp⟩
  | ok msgs =>
    try dsimp only
    cases hch : create_chat_history msgs with
    | error e =>
      simp only [hch]
      try dsimp only
      exact ⟨by decide, by simp, by simp, by simp⟩
    | ok hist =>
      simp only [hch]
      try dsimp only
      cases schemaLoad with
      | error e =>
        try dsimp only
        exact ⟨by decide, by simp, by simp, by simp⟩
      | ok hasSchema =>
        try dsimp only
        cases backendResult with
        | error e =>
          try dsimp only
          exact ⟨by decide, by simp, by simp, by simp⟩
        | ok raw =>
          try dsimp only
          cases hpp : execute_llm_task_postprocess loads hasSchema raw with
          | error e =>
            simp only [hpp]
            try dsimp only
            exact ⟨by decide, by simp, by simp, by simp⟩
          | ok resp =>
            simp only [hpp]
            try dsimp only
            cases dump_ok with
            | false =>
              refine ⟨by simp [List.count_cons], ?_, by simp, ?_⟩
              · intro doc hdoc
                exact absurd hdoc (by intro hc; exact FileState.noConfusion hc)
              · intro hok
                exact absurd hok (by intro hc; exact Except.noConfusion hc)
            | true =>
              refine ⟨by simp [List.count_cons], ?_, fun _ hne => absurd rfl hne,
                fun _ => ⟨resp, rfl⟩⟩
              intro doc hdoc
              have h2 := FileState.written.inj hdoc
              subst h2
              exact ⟨rfl, rfl, rfl⟩

/-- Witness for C6: a fully successful run writes the document once, with
`success = true` and the fixed metadata. -/
theorem C6_output_written_once_on_success_witness :
    ∃ resp,
      (llm_runner_main (Except.ok [⟨some "user", some "hi", none⟩])
          (Except.ok false) (Except.ok "hello") (fun _ => none) true).2.1 =
        FileState.written ⟨true, resp, outputMetadata⟩ :=
  (C6_output_written_once_on_success
    (Except.ok [⟨some "user", some "hi", none⟩]) (Except.ok false)
    (Except.ok "hello") (fun _ => none) true).2.2.2 (by decide)

/-- C10: `run_llm_task` raises `InputValidationError` exactly when one of
the five parameter conditions holds, and it does so before any service
setup or network activity (the event trace of a rejected run is empty).
Following the source checks, "provided" is formalized as Python truthiness
(a non-None, non-empty value) for the presence, format and vars checks,
and as merely non-None for the mutual-exclusion count — core.py lines
648-649 use `is not None` there, unlike the truthiness checks around it.
The "not one of handlebars, jinja2, semantic-kernel" condition applies to
a truthy `template_format`. -/
theorem C10_param_validation (p : RunParams)
    (schemaLoad inputLoad : Except Exc Unit)
    (exec : Except Exc EngineResponse) :
    ((validate_run_llm_task_params p).isSome = true ↔
      ((!truthy p.input_file && !truthy p.template_file &&
          !truthy p.template_content) = true ∨
        countTemplateInputs p > 1 ∨
        (truthy p.template_content && !truthy p.template_format) = true ∨
        (truthy p.template_format &&
          !(allowedFormats.contains (p.template_format.getD ""))) = true ∨
        (truthy p.template_vars_file && truthyVars p.template_vars) = true)) ∧
    (∀ s, validate_run_llm_task_params p = some s →
      run_llm_task_trace p schemaLoad inputLoad exec =
        ([], Except.error (Exc.inputValidationError s))) := by
  constructor
  · unfold validate_run_llm_task_params
    split_ifs with h1 h2 h3 h4 h5 <;> simp_all
  · intro s hs
    unfold run_llm_task_trace
    rw [hs]

/-- Witness for C10: with no input at all, validation rejects the call
with the no-input message and an empty trace, before any service setup. -/
theorem C10_param_validation_witness :
    run_llm_task_trace ⟨none, none, none, none, none, none, none, none⟩
        (Except.ok ()) (Except.ok ()) (Except.ok (EngineResponse.text "x")) =
      ([], Except.error (Exc.inputValidationError
        "Either input_file, template_file, or template_content must be specified")) :=
  (C10_param_validation ⟨none, none, none, none, none, none, none, none⟩
    (Except.ok ()) (Except.ok ()) (Except.ok (EngineResponse.text "x"))).2
    "Either input_file, template_file, or template_content must be specified" rfl
